import Mathlib

/-!
Shallow embedding of torch/_inductor/codegen/cutedsl/cutedsl_kernel.py
(class CuteDSLTemplateKernel and its helpers), for checking the repository
specification against the code.

Python object state is modelled as an explicit record KState; methods become
state-passing functions.  A raised assertion or attribute fault is modelled as
an Option Err result paired with the state at the moment of the raise (Python
mutations made before the raise persist, and finally-blocks still run).
-/

set_option autoImplicit false

namespace CuteDSL

/-- Association-list dictionary mirroring a Python dict: assignment overwrites
the entry in place when the key exists, else appends, so key iteration order is
first-insertion order. -/
def dictInsert {α : Type} (k : String) (v : α) : List (String × α) → List (String × α)
  | [] => [(k, v)]
  | p :: rest => if p.1 = k then (k, v) :: rest else p :: dictInsert k v rest

/-- Python dict item lookup. -/
def dictLookup {α : Type} (k : String) : List (String × α) → Option α
  | [] => none
  | p :: rest => if p.1 = k then some p.2 else dictLookup k rest

/-- An inductor buffer as consulted by this kernel: only its name matters
(via get_name() or the name attribute); none models a buffer whose name is
unavailable (the attribute is missing, so reading it faults or falls back). -/
structure Buffer where
  name : Option String
deriving DecidableEq

/-- The buffer name as used for keying dictionaries (meaningful under the
hypothesis that the name is present). -/
def nameD (b : Buffer) : String := b.name.getD ""

/-- Modelled from the spec: the external IndentedBuffer (imported from
torch/_inductor/codegen/common, not part of the sources here) is an ordered
sequence of text lines; writeline appends a line at indentation zero, and
getvalue yields each line terminated by a newline. -/
def getvalue (lines : List String) : String :=
  String.join (lines.map (fun l => l ++ "\n"))

/-- dataclass CuteDSLSubgraphInfo: exactly the three fields that
set_subgraph_body saves and restores (dataclasses.fields enumerates them). -/
structure CuteDSLSubgraphInfo where
  body : List String
  template_mask : Option String
  template_out : Option String
deriving DecidableEq

/-- Both render hooks registered by store_output and def_kernel have the same
closure shape: call the no-op SimpleCuteDSLCSE.invalidate, then return
self.body.getvalue().strip() evaluated at invocation time. -/
inductive Hook where
  | currentBodyTrimmed
deriving DecidableEq

/-- Faults raised by the code: the duplicate-subgraph assertion in
create_subgraph_body, the duplicate-hook assertions guarding render-hook
registration, and the attribute fault when a buffer has no usable name. -/
inductive Err where
  | duplicateRegion (name : String)
  | duplicateHook (token : String)
  | attributeFault
deriving DecidableEq

/-- The mutable state of one CuteDSLTemplateKernel instance (the Context).
Fields that the claims never consult (cse, prologue_fused_inputs, the
diagnostic stubs) are omitted as they are write-never no-ops in the source. -/
structure KState where
  kernel_name : String
  input_nodes : List Buffer
  output_node : Option Buffer
  subgraph_bodies : List (String × CuteDSLSubgraphInfo)
  body : List String
  template_mask : Option String
  template_out : Option String
  template_indices : Option (List String)
  render_hooks : List (String × Hook)
  named_input_nodes : List (String × Buffer)
  args_input_buffers : List (String × String)
  args_output_buffers : List (String × String)
deriving DecidableEq

/-- The named_input_nodes mapping built in the constructor:
for i, node: named_input_nodes[getattr(node, name-attribute, input_i)] = node. -/
def buildNamedInputs (inputs : List Buffer) : List (String × Buffer) :=
  inputs.enum.foldl
    (fun d p => dictInsert (p.2.name.getD ("input_" ++ toString p.1)) p.2 d) []

/-- CuteDSLTemplateKernel.__init__ (together with the Kernel-args tables it
inherits, which start empty). -/
def initKernel (kernel_name : String) (inputs : List Buffer) (output : Option Buffer) :
    KState :=
  { kernel_name := kernel_name
    input_nodes := inputs
    output_node := output
    subgraph_bodies := []
    body := []
    template_mask := none
    template_out := none
    template_indices := none
    render_hooks := []
    named_input_nodes := buildNamedInputs inputs
    args_input_buffers := []
    args_output_buffers := [] }

/-- The snapshot taken by set_subgraph_body: the Context fields named by
dataclasses.fields(CuteDSLSubgraphInfo). -/
def mirrorOf (s : KState) : CuteDSLSubgraphInfo :=
  { body := s.body, template_mask := s.template_mask, template_out := s.template_out }

/-- Writing a saved CuteDSLSubgraphInfo back onto the Context's fields. -/
def setMirror (i : CuteDSLSubgraphInfo) (s : KState) : KState :=
  { s with body := i.body, template_mask := i.template_mask, template_out := i.template_out }

/-- A freshly created subgraph: empty buffer, optional fields absent. -/
def emptyInfo : CuteDSLSubgraphInfo :=
  { body := [], template_mask := none, template_out := none }

/-- CuteDSLTemplateKernel.set_subgraph_body as a scoped combinator: the body of
the Python with-statement is the function f, which returns the optional fault
it raises together with the state at that moment; the finally-block (save the
current fields into the store, then restore the old fields) runs on both the
normal and the fault path, and the fault is then propagated. -/
def set_subgraph_body (name : String) (f : KState → Option Err × KState) (s : KState) :
    Option Err × KState :=
  let old := mirrorOf s
  let s1 := if (dictLookup name s.subgraph_bodies).isSome then s
            else { s with subgraph_bodies := dictInsert name emptyInfo s.subgraph_bodies }
  let s2 := setMirror ((dictLookup name s1.subgraph_bodies).getD emptyInfo) s1
  let r := f s2
  let s4 := { r.2 with subgraph_bodies := dictInsert name (mirrorOf r.2) r.2.subgraph_bodies }
  (r.1, setMirror old s4)

/-- CuteDSLTemplateKernel.create_subgraph_body: assert the name is new, insert
a fresh empty subgraph, then delegate to set_subgraph_body. -/
def create_subgraph_body (name : String) (f : KState → Option Err × KState) (s : KState) :
    Option Err × KState :=
  if (dictLookup name s.subgraph_bodies).isSome then (some (Err.duplicateRegion name), s)
  else set_subgraph_body name f
    { s with subgraph_bodies := dictInsert name emptyInfo s.subgraph_bodies }

/-- The assert-then-assign pattern guarding self.render_hooks[token] = hook. -/
def registerHook (token : String) (h : Hook) (s : KState) : Option Err × KState :=
  if (dictLookup token s.render_hooks).isSome then (some (Err.duplicateHook token), s)
  else (none, { s with render_hooks := dictInsert token h s.render_hooks })

/-- Modelled from the spec: str.strip trims surrounding whitespace from both
ends of the text (defined structurally so it evaluates on concrete inputs). -/
def strip (s : String) : String :=
  ⟨((s.data.dropWhile Char.isWhitespace).reverse.dropWhile Char.isWhitespace).reverse⟩

/-- Invoking a registered render hook on the Context state current at
invocation time: the closures read self.body.getvalue().strip()
(SimpleCuteDSLCSE.invalidate is a no-op in the source). -/
def runHook (h : Hook) (s : KState) : String :=
  match h with
  | Hook.currentBodyTrimmed => strip (getvalue s.body)

/-- The lines store_output writes into the store region: the value comment,
then the mask comment when the mask is truthy (present and non-empty). -/
def storeLines (val : String) (mask : Option String) : List String :=
  ["# Store output: " ++ val] ++
    (match mask with
     | some m => if m.isEmpty then [] else ["# Mask: " ++ m]
     | none => [])

/-- CuteDSLTemplateKernel.store_output.  The unused indent_width parameter is
dropped.  Returns the raised fault (if any), the state, and the returned
placeholder token. -/
def store_output (indices : List String) (val : String) (mask : Option String)
    (s : KState) : Option Err × KState × String :=
  let r := create_subgraph_body "<STORE_OUTPUT>" (fun t =>
    let t1 := { t with template_mask := mask
                       template_out := some val
                       template_indices := some (if indices.isEmpty then [] else indices) }
    let t2 := { t1 with body := t1.body ++ ["# Store output: " ++ val] }
    let t3 := match mask with
              | some m => if m.isEmpty then t2 else { t2 with body := t2.body ++ ["# Mask: " ++ m] }
              | none => t2
    (none, t3)) s
  match r.1 with
  | some e => (some e, r.2, "")
  | none =>
    let r2 := registerHook "<STORE_OUTPUT>" Hook.currentBodyTrimmed r.2
    match r2.1 with
    | some e => (some e, r2.2, "")
    | none => (none, r2.2, "<STORE_OUTPUT>")

/-- The loop in def_kernel over zip(argnames, input_nodes): record the node
under the given name, then bind input_buffers[node.get_name()] = name; reading
a missing name faults, after the named_input_nodes update already happened. -/
def bindInputs : List String → List Buffer → KState → Option Err × KState
  | [], _, s => (none, s)
  | _ :: _, [], s => (none, s)
  | n :: ns, b :: bs, s =>
    let s1 := { s with named_input_nodes := dictInsert n b s.named_input_nodes }
    match b.name with
    | none => (some Err.attributeFault, s1)
    | some bn =>
      bindInputs ns bs { s1 with args_input_buffers := dictInsert bn n s1.args_input_buffers }

/-- The output branch of def_kernel: if an output node is present, bind
output_buffers[output.get_name()] = "output". -/
def bindOutput (s : KState) : Option Err × KState :=
  match s.output_node with
  | none => (none, s)
  | some out =>
    match out.name with
    | none => (some Err.attributeFault, s)
    | some outName =>
      (none, { s with args_output_buffers := dictInsert outName "output" s.args_output_buffers })

/-- The lines def_kernel writes into the DEF_KERNEL region. -/
def defLines (argnames : List String) (kname : String) : List String :=
  if argnames.isEmpty then
    ["# CuteDSL kernel function: " ++ kname,
     "def " ++ kname ++ "():"]
  else
    ["# CuteDSL kernel function: " ++ kname,
     "# Arguments: " ++ String.intercalate ", " argnames,
     "def " ++ kname ++ "(" ++ String.intercalate ", " argnames ++ "):"]

/-- CuteDSLTemplateKernel.def_kernel. -/
def def_kernel (argnames : List String) (s : KState) : Option Err × KState × String :=
  let r0 := if argnames.isEmpty then (none, s) else bindInputs argnames s.input_nodes s
  match r0.1 with
  | some e => (some e, r0.2, "")
  | none =>
    let r1 := bindOutput r0.2
    match r1.1 with
    | some e => (some e, r1.2, "")
    | none =>
      let r2 := create_subgraph_body "<DEF_KERNEL>" (fun t =>
        (none, { t with body := t.body ++ defLines argnames t.kernel_name })) r1.2
      match r2.1 with
      | some e => (some e, r2.2, "")
      | none =>
        let r3 := registerHook "<DEF_KERNEL>" Hook.currentBodyTrimmed r2.2
        match r3.1 with
        | some e => (some e, r3.2, "")
        | none => (none, r3.2, "<DEF_KERNEL>")

/-- The identity fields render passes to the template service. -/
structure RenderIdentity where
  kernel_name : String
  input_nodes : List Buffer
  output_node : Option Buffer

/-- The type of def_kernel as passed into the template environment. -/
abbrev DefKernelFn := List String → KState → Option Err × KState × String

/-- The type of store_output as passed into the template environment. -/
abbrev StoreOutputFn := List String → String → Option String → KState → Option Err × KState × String

/-- The external template-rendering service (pass 1): given the identity
fields, the two template-facing callables, and the caller-supplied bindings,
it may invoke the callables against the Context state and produces the
expanded text together with the resulting state. -/
abbrev TemplateFn :=
  RenderIdentity → DefKernelFn → StoreOutputFn → List (String × String) → KState →
    String × KState

/-- CuteDSLTemplateKernel.render: call the external service with kernel_name,
input_nodes, output_node, the template environment holding store_output and
def_kernel, and the extra keyword bindings; return its text verbatim. -/
def render (template : TemplateFn) (kwargs : List (String × String)) (s : KState) :
    String × KState :=
  template
    { kernel_name := s.kernel_name, input_nodes := s.input_nodes, output_node := s.output_node }
    def_kernel store_output kwargs s

/-- The tuple handed to the external wrapper-code emitter by call_kernel. -/
structure WrapperCall where
  name : String
  call_args : List String
  triton : Bool
  arg_types : List String
deriving DecidableEq

/-- Modelled from the spec: the external argument-binding service
(KernelArgs.python_argdefs, not part of the sources here) derives the call
arguments from the argument table, input entries then output entries in
insertion order, keyed by the external buffer names, every buffer typed
torch.Tensor. -/
def python_argdefs (input_buffers output_buffers : List (String × String)) :
    List String × List String :=
  let call_args := input_buffers.map (fun p => p.1) ++ output_buffers.map (fun p => p.1)
  (call_args, call_args.map (fun _ => "torch.Tensor"))

/-- CuteDSLTemplateKernel.call_kernel.  The branch condition is modelled from
the spec: the argument-table path is taken when the table has been populated,
else the fallback derives one argument per input/output buffer, using the
buffer name when available and a synthetic name otherwise, every argument
typed torch.Tensor; the call is emitted with triton set to false. -/
def call_kernel (name : String) (s : KState) : WrapperCall :=
  if s.args_input_buffers ≠ [] ∨ s.args_output_buffers ≠ [] then
    let r := python_argdefs s.args_input_buffers s.args_output_buffers
    { name := name, call_args := r.1, triton := false, arg_types := r.2 }
  else
    let input_args := s.input_nodes.enum.map (fun p =>
      match p.2.name with
      | some n => n
      | none => "arg" ++ toString p.1)
    let out_args : List String :=
      match s.output_node with
      | some b => [match b.name with | some n => n | none => "out"]
      | none => []
    let call_args := input_args ++ out_args
    { name := name, call_args := call_args, triton := false,
      arg_types := call_args.map (fun _ => "torch.Tensor") }

end CuteDSL

namespace CuteDSL

theorem dictLookup_dictInsert_self {α : Type} (k : String) (v : α) (d : List (String × α)) :
    dictLookup k (dictInsert k v d) = some v := by
  induction d with
  | nil => simp [dictInsert, dictLookup]
  | cons p rest ih =>
    by_cases h : p.1 = k
    · simp [dictInsert, dictLookup, h]
    · simp [dictInsert, dictLookup, h, ih]

theorem dictLookup_dictInsert_ne {α : Type} {k k' : String} (v : α) (d : List (String × α))
    (h : k' ≠ k) : dictLookup k (dictInsert k' v d) = dictLookup k d := by
  induction d with
  | nil => simp [dictInsert, dictLookup, h]
  | cons p rest ih =>
    by_cases hp : p.1 = k'
    · simp [dictInsert, dictLookup, hp, h]
    · simp only [dictInsert, hp, if_false]
      by_cases hk : p.1 = k
      · simp [dictLookup, hk]
      · simp [dictLookup, hk, ih]

theorem dictInsert_dictInsert_self {α : Type} (k : String) (v w : α) (d : List (String × α)) :
    dictInsert k v (dictInsert k w d) = dictInsert k v d := by
  induction d with
  | nil => simp [dictInsert]
  | cons p rest ih =>
    by_cases h : p.1 = k
    · simp [dictInsert, h]
    · simp [dictInsert, h, ih]

@[simp] theorem mirrorOf_setMirror (i : CuteDSLSubgraphInfo) (s : KState) :
    mirrorOf (setMirror i s) = i := rfl

@[simp] theorem subgraph_bodies_setMirror (i : CuteDSLSubgraphInfo) (s : KState) :
    (setMirror i s).subgraph_bodies = s.subgraph_bodies := rfl

/-- C1: for every region name and every scope body run under set_subgraph_body
(covering arbitrary nested enter/exit pairs, bodies that mutate nothing, and
bodies that raise a fault), the Context's mirrored fields (code buffer, mask
expression, output expression) after the outermost exit equal their values
before the outermost enter, and a fault raised inside the scope still
propagates after that restore. -/
theorem claim1_region_stack_restore :
    ∀ (n : String) (f : KState → Option Err × KState) (s : KState),
      mirrorOf (set_subgraph_body n f s).2 = mirrorOf s
      ∧ ∀ err : Err,
          (set_subgraph_body n (fun t => (some err, t)) s).1 = some err := by
  intro n f s
  constructor
  · simp [set_subgraph_body]
  · intro err
    rfl

/-- C7: entering an absent region auto-creates it (behaving exactly as
create-then-enter), the created region state is empty, and create-then-enter
on an existing region fails with the duplicate-region fault leaving the state
untouched. -/
theorem claim7_auto_create_and_duplicate :
    ∀ (n : String) (f : KState → Option Err × KState) (s : KState),
      (dictLookup n s.subgraph_bodies = none →
        set_subgraph_body n f s = create_subgraph_body n f s)
      ∧ (∀ i : CuteDSLSubgraphInfo, dictLookup n s.subgraph_bodies = some i →
          create_subgraph_body n f s = (some (Err.duplicateRegion n), s))
      ∧ (dictLookup n s.subgraph_bodies = none →
          (set_subgraph_body n (fun t => (none, t)) s).2.subgraph_bodies
            = dictInsert n emptyInfo s.subgraph_bodies) := by
  intro n f s
  refine ⟨?_, ?_, ?_⟩
  · intro h
    simp [set_subgraph_body, create_subgraph_body, h, dictLookup_dictInsert_self, mirrorOf]
  · intro i h
    simp [create_subgraph_body, h]
  · intro h
    simp [set_subgraph_body, h, dictLookup_dictInsert_self, emptyInfo, setMirror, mirrorOf,
      dictInsert_dictInsert_self]

/-- Witness for C7 at concrete inputs: a fresh Context auto-creates region R,
and create-then-enter fails on a Context where R already exists. -/
theorem claim7_witness :
    (set_subgraph_body "R" (fun t => (none, t)) (initKernel "k" [] none)
      = create_subgraph_body "R" (fun t => (none, t)) (initKernel "k" [] none))
    ∧ (create_subgraph_body "R" (fun t => (none, t))
        { initKernel "k" [] none with subgraph_bodies := [("R", emptyInfo)] }
      = (some (Err.duplicateRegion "R"),
         { initKernel "k" [] none with subgraph_bodies := [("R", emptyInfo)] })) :=
  ⟨(claim7_auto_create_and_duplicate "R" (fun t => (none, t)) (initKernel "k" [] none)).1 rfl,
   (claim7_auto_create_and_duplicate "R" (fun t => (none, t))
      { initKernel "k" [] none with subgraph_bodies := [("R", emptyInfo)] }).2.1 emptyInfo rfl⟩

end CuteDSL

namespace CuteDSL

/-- The Context state after def_kernel() on a fresh Context named k with no
inputs and no output. -/
def defKernelDoneState : KState := (def_kernel [] (initKernel "k" [] none)).2.1

/-- C2 (failing input): def_kernel succeeds and registers its hook, the
DEF_KERNEL region buffer holds the generated definition, yet invoking the
registered hook on the Context after the region has been exited returns the
trimmed restored (empty) top-level buffer, not the region contents the claim
requires. -/
theorem claim2_hook_reads_restored_buffer :
    (def_kernel [] (initKernel "k" [] none)).1 = none
    ∧ (dictLookup "<DEF_KERNEL>" defKernelDoneState.render_hooks).map
        (fun h => runHook h defKernelDoneState) = some ""
    ∧ (dictLookup "<DEF_KERNEL>" defKernelDoneState.subgraph_bodies).map
        (fun i => strip (getvalue i.body))
        = some "# CuteDSL kernel function: k\ndef k():"
    ∧ ("" : String) ≠ "# CuteDSL kernel function: k\ndef k():" := by
  refine ⟨rfl, by decide, by decide, by decide⟩

/-- The Context state after store_output([i, j], v, m) on a fresh Context. -/
def storeOutputDoneState : KState :=
  (store_output ["i", "j"] "v" (some "m") (initKernel "k" [] none)).2.1

/-- C5 (failing input): store_output succeeds, the STORE_OUTPUT region buffer
holds the value and mask comments, yet resolving the registered hook after the
call returns the trimmed restored (empty) top-level buffer, which contains no
representation of the value v at all. -/
theorem claim5_hook_result_misses_value :
    (store_output ["i", "j"] "v" (some "m") (initKernel "k" [] none)).1 = none
    ∧ (dictLookup "<STORE_OUTPUT>" storeOutputDoneState.render_hooks).map
        (fun h => runHook h storeOutputDoneState) = some ""
    ∧ (dictLookup "<STORE_OUTPUT>" storeOutputDoneState.subgraph_bodies).map
        (fun i => strip (getvalue i.body))
        = some "# Store output: v\n# Mask: m"
    ∧ ¬ ("v".data <:+: ("" : String).data) := by
  refine ⟨rfl, by decide, by decide, by decide⟩

/-- C6: on a Context with inputs a, b and output c, after def_kernel(x, y) the
call site passes [a, b, c] typed torch.Tensor each, flagged non-Triton; and on
an unpopulated argument table the fallback uses the buffer names, or synthetic
names arg0, arg1, out when buffer names are unavailable. -/
theorem claim6_call_kernel_args :
    (call_kernel "kk"
        (def_kernel ["x", "y"]
          (initKernel "kern" [⟨some "a"⟩, ⟨some "b"⟩] (some ⟨some "c"⟩))).2.1
      = { name := "kk", call_args := ["a", "b", "c"], triton := false,
          arg_types := ["torch.Tensor", "torch.Tensor", "torch.Tensor"] })
    ∧ (call_kernel "kk" (initKernel "kern" [⟨some "a"⟩, ⟨some "b"⟩] (some ⟨some "c"⟩))
      = { name := "kk", call_args := ["a", "b", "c"], triton := false,
          arg_types := ["torch.Tensor", "torch.Tensor", "torch.Tensor"] })
    ∧ (call_kernel "kk" (initKernel "kern" [⟨none⟩, ⟨none⟩] (some ⟨none⟩))
      = { name := "kk", call_args := ["arg0", "arg1", "out"], triton := false,
          arg_types := ["torch.Tensor", "torch.Tensor", "torch.Tensor"] }) := by
  refine ⟨by decide, by decide, by decide⟩

/-- C3 (counterexample): a second def_kernel call and a second store_output
call on the same Context fail with the duplicate-region fault raised by
create_subgraph_body, not with the duplicate-hook fault the claim names. -/
theorem claim3_counterexample :
    (def_kernel [] (def_kernel [] (initKernel "k" [] none)).2.1).1
        = some (Err.duplicateRegion "<DEF_KERNEL>")
    ∧ (def_kernel [] (def_kernel [] (initKernel "k" [] none)).2.1).1
        ≠ some (Err.duplicateHook "<DEF_KERNEL>")
    ∧ (store_output [] "w" none
        (store_output [] "v" none (initKernel "k" [] none)).2.1).1
        = some (Err.duplicateRegion "<STORE_OUTPUT>")
    ∧ (store_output [] "w" none
        (store_output [] "v" none (initKernel "k" [] none)).2.1).1
        ≠ some (Err.duplicateHook "<STORE_OUTPUT>") := by
  refine ⟨rfl, by decide, rfl, by decide⟩

/-- C9 (counterexample): the index list written by store_output stays on the
Context's template_indices field after the store region has been exited (it
starts absent and is some [i0, i1] after the call), and a template_indices
mutation made inside any region scope survives the exit: the field is not part
of the saved/restored region state. -/
theorem claim9_counterexample :
    (initKernel "k" [] none).template_indices = none
    ∧ (store_output ["i0", "i1"] "v" none (initKernel "k" [] none)).2.1.template_indices
        = some ["i0", "i1"]
    ∧ (set_subgraph_body "R" (fun t => (none, { t with template_indices := some ["z"] }))
        (initKernel "k" [] none)).2.template_indices = some ["z"] := by
  refine ⟨rfl, rfl, rfl⟩

/-- A sample template for pass 1: it invokes the def_kernel callable and embeds
the returned placeholder token between fixed text. -/
def sampleTemplate : TemplateFn := fun _idn dk _so _kw s =>
  let r := dk ["x"] s
  ("PRE\n" ++ r.2.2 ++ "\nPOST", r.2.1)

/-- A sample Context for rendering. -/
def sampleContext : KState := initKernel "kern" [⟨some "a"⟩] (some ⟨some "c"⟩)

/-- C8: render hands the template service exactly the Context's identity
fields, the def_kernel and store_output callables and the caller's bindings,
and returns the pass-1 text verbatim; concretely, a template embedding the
def_kernel token yields text still containing the unresolved literal token
while the hook is registered in the resulting state. -/
theorem claim8_render_verbatim :
    (∀ (template : TemplateFn) (kwargs : List (String × String)) (s : KState),
      render template kwargs s
        = template
            { kernel_name := s.kernel_name, input_nodes := s.input_nodes,
              output_node := s.output_node }
            def_kernel store_output kwargs s)
    ∧ (render sampleTemplate [] sampleContext).1 = "PRE\n<DEF_KERNEL>\nPOST"
    ∧ dictLookup "<DEF_KERNEL>" (render sampleTemplate [] sampleContext).2.render_hooks
        = some Hook.currentBodyTrimmed := by
  refine ⟨fun _ _ _ => rfl, by decide, by decide⟩

end CuteDSL

namespace CuteDSL

/-- The args.input_buffers table produced by the def_kernel loop over
zip(argnames, input_nodes). -/
def inputBindFold (ns : List String) (bs : List Buffer) (d : List (String × String)) :
    List (String × String) :=
  match ns, bs with
  | n :: ns', b :: bs' => inputBindFold ns' bs' (dictInsert (nameD b) n d)
  | _, _ => d

/-- The named_input_nodes table produced by the def_kernel loop. -/
def namedFold (ns : List String) (bs : List Buffer) (d : List (String × Buffer)) :
    List (String × Buffer) :=
  match ns, bs with
  | n :: ns', b :: bs' => namedFold ns' bs' (dictInsert n b d)
  | _, _ => d

theorem bindInputs_of_named :
    ∀ (ns : List String) (bs : List Buffer) (s : KState),
      (∀ b ∈ bs, b.name.isSome) →
      bindInputs ns bs s
        = (none,
           { s with
               named_input_nodes := namedFold ns bs s.named_input_nodes,
               args_input_buffers := inputBindFold ns bs s.args_input_buffers }) := by
  intro ns
  induction ns with
  | nil => intro bs s _h; rfl
  | cons n ns ih =>
    intro bs s h
    cases bs with
    | nil => rfl
    | cons b bs =>
      obtain ⟨bn, hbn⟩ := Option.isSome_iff_exists.mp (h b (by simp))
      have htail : ∀ x ∈ bs, x.name.isSome := fun x hx => h x (by simp [hx])
      simp only [bindInputs, hbn]
      rw [ih bs _ htail]
      simp [namedFold, inputBindFold, nameD, hbn]

theorem inputBindFold_lookup_not_mem :
    ∀ (ns : List String) (bs : List Buffer) (d : List (String × String)) (k : String),
      k ∉ (bs.take ns.length).map nameD →
      dictLookup k (inputBindFold ns bs d) = dictLookup k d := by
  intro ns
  induction ns with
  | nil => intro bs d k _h; rfl
  | cons n ns ih =>
    intro bs d k h
    cases bs with
    | nil => rfl
    | cons b bs =>
      simp only [List.length_cons, List.take_succ_cons, List.map_cons, List.mem_cons,
        not_or] at h
      simp only [inputBindFold]
      rw [ih bs _ k h.2, dictLookup_dictInsert_ne _ _ (fun he => h.1 he.symm)]

theorem inputBindFold_lookup_at :
    ∀ (j : Nat) (ns : List String) (bs : List Buffer) (d : List (String × String)),
      j < ns.length → j < bs.length →
      ((bs.take ns.length).map nameD).Nodup →
      dictLookup (nameD (bs.getD j ⟨none⟩)) (inputBindFold ns bs d)
        = some (ns.getD j "") := by
  intro j
  induction j with
  | zero =>
    intro ns bs d h1 h2 h3
    cases ns with
    | nil => simp at h1
    | cons n ns =>
      cases bs with
      | nil => simp at h2
      | cons b bs =>
        simp only [List.length_cons, List.take_succ_cons, List.map_cons,
          List.nodup_cons] at h3
        simp only [inputBindFold, List.getD_cons_zero]
        rw [inputBindFold_lookup_not_mem ns bs _ _ h3.1, dictLookup_dictInsert_self]
  | succ j ih =>
    intro ns bs d h1 h2 h3
    cases ns with
    | nil => simp at h1
    | cons n ns =>
      cases bs with
      | nil => simp at h2
      | cons b bs =>
        simp only [List.length_cons, List.take_succ_cons, List.map_cons,
          List.nodup_cons] at h3
        simp only [inputBindFold, List.getD_cons_succ]
        exact ih ns bs _ (Nat.lt_of_succ_lt_succ h1) (Nat.lt_of_succ_lt_succ h2) h3.2

theorem inputBindFold_take :
    ∀ (ns : List String) (bs : List Buffer) (d : List (String × String)),
      inputBindFold ns bs d = inputBindFold (ns.take bs.length) bs d := by
  intro ns
  induction ns with
  | nil => intro bs d; simp
  | cons n ns ih =>
    intro bs d
    cases bs with
    | nil => rfl
    | cons b bs => simp only [List.length_cons, List.take_succ_cons, inputBindFold]; exact ih bs _

theorem getD_mem_of_lt {α : Type} :
    ∀ (l : List α) (j : Nat) (d : α), j < l.length → l.getD j d ∈ l := by
  intro l
  induction l with
  | nil => intro j d h; simp at h
  | cons a l ih =>
    intro j d h
    cases j with
    | zero => simp
    | succ j =>
      simp only [List.getD_cons_succ, List.mem_cons]
      exact Or.inr (ih j d (Nat.lt_of_succ_lt_succ h))

theorem getD_not_mem_take_map :
    ∀ (bs : List Buffer) (k j : Nat),
      ((bs.map nameD).Nodup) → k ≤ j → j < bs.length →
      nameD (bs.getD j ⟨none⟩) ∉ (bs.take k).map nameD := by
  intro bs
  induction bs with
  | nil => intro k j _ _ h; simp at h
  | cons b bs ih =>
    intro k j hnd hkj hj
    cases k with
    | zero => simp
    | succ k =>
      cases j with
      | zero => exact absurd hkj (by simp)
      | succ j =>
        simp only [List.map_cons, List.nodup_cons] at hnd
        simp only [List.take_succ_cons, List.map_cons, List.mem_cons, not_or,
          List.getD_cons_succ]
        refine ⟨fun he => hnd.1 ?_, ih k j hnd.2 (Nat.le_of_succ_le_succ hkj)
          (Nat.lt_of_succ_lt_succ hj)⟩
        rw [← he]
        exact List.mem_map_of_mem nameD (getD_mem_of_lt bs j _ (Nat.lt_of_succ_lt_succ hj))

theorem nodup_take_map (bs : List Buffer) (k : Nat) (h : (bs.map nameD).Nodup) :
    ((bs.take k).map nameD).Nodup := by
  have hsub : List.Sublist ((bs.take k).map nameD) (bs.map nameD) :=
    List.Sublist.map nameD (List.take_sublist k bs)
  exact List.Nodup.sublist hsub h

end CuteDSL

namespace CuteDSL

/-- The args.output_buffers table after the output branch of def_kernel. -/
def outputBind (s : KState) : List (String × String) :=
  match s.output_node with
  | some b => dictInsert (nameD b) "output" s.args_output_buffers
  | none => s.args_output_buffers

theorem bindOutput_of_named (s : KState) (ho : ∀ b, s.output_node = some b → b.name.isSome) :
    bindOutput s = (none, { s with args_output_buffers := outputBind s }) := by
  obtain ⟨kn, inp, out, sub, bo, tm, tout, ti, rh, ni, ai, ao⟩ := s
  cases out with
  | none => rfl
  | some b =>
    obtain ⟨bname⟩ := b
    cases bname with
    | none => exact absurd (ho ⟨none⟩ rfl) (by simp)
    | some bn => rfl

theorem def_kernel_spec (argnames : List String) (s : KState)
    (hn : ∀ b ∈ s.input_nodes, b.name.isSome)
    (ho : ∀ b, s.output_node = some b → b.name.isSome)
    (hreg : dictLookup "<DEF_KERNEL>" s.subgraph_bodies = none)
    (hhook : dictLookup "<DEF_KERNEL>" s.render_hooks = none) :
    def_kernel argnames s
      = (none,
         { s with
             named_input_nodes := namedFold argnames s.input_nodes s.named_input_nodes,
             args_input_buffers := inputBindFold argnames s.input_nodes s.args_input_buffers,
             args_output_buffers := outputBind s,
             subgraph_bodies := dictInsert "<DEF_KERNEL>"
               { body := defLines argnames s.kernel_name,
                 template_mask := none, template_out := none } s.subgraph_bodies,
             render_hooks := dictInsert "<DEF_KERNEL>" Hook.currentBodyTrimmed s.render_hooks },
         "<DEF_KERNEL>") := by
  have hbind :
      (if argnames.isEmpty then (none, s) else bindInputs argnames s.input_nodes s)
        = ((none : Option Err),
           { s with
               named_input_nodes := namedFold argnames s.input_nodes s.named_input_nodes,
               args_input_buffers := inputBindFold argnames s.input_nodes s.args_input_buffers }) := by
    cases argnames with
    | nil => rfl
    | cons a as =>
      simp only [List.isEmpty_cons, if_false, Bool.false_eq_true]
      exact bindInputs_of_named _ _ _ hn
  simp only [def_kernel, hbind]
  rw [bindOutput_of_named _ (by simpa using ho)]
  simp only [create_subgraph_body, set_subgraph_body, registerHook, hreg, hhook,
    dictLookup_dictInsert_self, dictInsert_dictInsert_self, Option.isSome_none,
    Option.isSome_some, Bool.false_eq_true, if_false, if_true, Option.getD_some,
    mirrorOf, setMirror, emptyInfo]
  rfl

end CuteDSL

namespace CuteDSL

theorem store_output_spec (indices : List String) (val : String) (mask : Option String)
    (s : KState)
    (hreg : dictLookup "<STORE_OUTPUT>" s.subgraph_bodies = none)
    (hhook : dictLookup "<STORE_OUTPUT>" s.render_hooks = none) :
    store_output indices val mask s
      = (none,
         { s with
             subgraph_bodies := dictInsert "<STORE_OUTPUT>"
               { body := storeLines val mask, template_mask := mask,
                 template_out := some val } s.subgraph_bodies,
             template_indices := some (if indices.isEmpty then [] else indices),
             render_hooks := dictInsert "<STORE_OUTPUT>" Hook.currentBodyTrimmed
               s.render_hooks },
         "<STORE_OUTPUT>") := by
  cases mask with
  | none =>
    simp only [store_output, create_subgraph_body, set_subgraph_body, registerHook,
      hreg, hhook, dictLookup_dictInsert_self, dictInsert_dictInsert_self,
      Option.isSome_none, Option.isSome_some, Bool.false_eq_true, if_false, if_true,
      Option.getD_some, mirrorOf, setMirror, emptyInfo, storeLines]
    rfl
  | some m =>
    by_cases hm : m.isEmpty
    · simp only [store_output, create_subgraph_body, set_subgraph_body, registerHook,
        hreg, hhook, dictLookup_dictInsert_self, dictInsert_dictInsert_self,
        Option.isSome_none, Option.isSome_some, Bool.false_eq_true, if_false, if_true,
        Option.getD_some, mirrorOf, setMirror, emptyInfo, storeLines, hm]
      rfl
    · simp only [store_output, create_subgraph_body, set_subgraph_body, registerHook,
        hreg, hhook, dictLookup_dictInsert_self, dictInsert_dictInsert_self,
        Option.isSome_none, Option.isSome_some, Bool.false_eq_true, if_false, if_true,
        Option.getD_some, mirrorOf, setMirror, emptyInfo, storeLines, hm]
      rfl

theorem store_output_dup (indices : List String) (val : String) (mask : Option String)
    (s : KState) (h : (dictLookup "<STORE_OUTPUT>" s.subgraph_bodies).isSome) :
    (store_output indices val mask s).1 = some (Err.duplicateRegion "<STORE_OUTPUT>") := by
  simp [store_output, create_subgraph_body, h]

theorem def_kernel_dup (argnames : List String) (s : KState)
    (hn : ∀ b ∈ s.input_nodes, b.name.isSome)
    (ho : ∀ b, s.output_node = some b → b.name.isSome)
    (h : (dictLookup "<DEF_KERNEL>" s.subgraph_bodies).isSome) :
    (def_kernel argnames s).1 = some (Err.duplicateRegion "<DEF_KERNEL>") := by
  have hbind :
      (if argnames.isEmpty then (none, s) else bindInputs argnames s.input_nodes s)
        = ((none : Option Err),
           { s with
               named_input_nodes := namedFold argnames s.input_nodes s.named_input_nodes,
               args_input_buffers := inputBindFold argnames s.input_nodes s.args_input_buffers }) := by
    cases argnames with
    | nil => rfl
    | cons a as =>
      simp only [List.isEmpty_cons, if_false, Bool.false_eq_true]
      exact bindInputs_of_named _ _ _ hn
  simp only [def_kernel, hbind]
  rw [bindOutput_of_named _ (by simpa using ho)]
  simp only [create_subgraph_body, h, Option.isSome_some, if_true]

end CuteDSL

namespace CuteDSL

/-- C3 (amended): a second def_kernel call and a second store_output call on
the same Context fail, but with the duplicate-region fault from
create_subgraph_body (reached before any hook registration), the def_kernel
case under the proviso that its argument-binding phase, which runs first, does
not itself fault; re-registering a token directly in the hook registry is what
fails with the duplicate-hook fault. -/
theorem claim3_second_calls_fault :
    (∀ (s : KState) (a1 a2 : List String),
      (∀ b ∈ s.input_nodes, b.name.isSome) →
      (∀ b, s.output_node = some b → b.name.isSome) →
      dictLookup "<DEF_KERNEL>" s.subgraph_bodies = none →
      dictLookup "<DEF_KERNEL>" s.render_hooks = none →
      (def_kernel a2 (def_kernel a1 s).2.1).1 = some (Err.duplicateRegion "<DEF_KERNEL>"))
    ∧ (∀ (s : KState) (i1 i2 : List String) (v1 v2 : String) (m1 m2 : Option String),
      dictLookup "<STORE_OUTPUT>" s.subgraph_bodies = none →
      dictLookup "<STORE_OUTPUT>" s.render_hooks = none →
      (store_output i2 v2 m2 (store_output i1 v1 m1 s).2.1).1
        = some (Err.duplicateRegion "<STORE_OUTPUT>"))
    ∧ (∀ (tok : String) (h h' : Hook) (s : KState),
      dictLookup tok s.render_hooks = none →
      (registerHook tok h' (registerHook tok h s).2).1 = some (Err.duplicateHook tok)) := by
  refine ⟨?_, ?_, ?_⟩
  · intro s a1 a2 hn ho hreg hhook
    rw [def_kernel_spec a1 s hn ho hreg hhook]
    refine def_kernel_dup a2 _ hn ho ?_
    simp [dictLookup_dictInsert_self]
  · intro s i1 i2 v1 v2 m1 m2 hreg hhook
    rw [store_output_spec i1 v1 m1 s hreg hhook]
    refine store_output_dup i2 v2 m2 _ ?_
    simp [dictLookup_dictInsert_self]
  · intro tok h h' s hfree
    simp [registerHook, hfree, dictLookup_dictInsert_self]

/-- Witness for C3 (amended) at concrete inputs: on a fresh Context the second
def_kernel and second store_output calls raise the duplicate-region fault, and
double registration of token T raises the duplicate-hook fault. -/
theorem claim3_second_calls_fault_witness :
    (def_kernel ["y"] (def_kernel ["x"] (initKernel "k" [⟨some "a"⟩] none)).2.1).1
        = some (Err.duplicateRegion "<DEF_KERNEL>")
    ∧ (store_output ["j"] "w" none
        (store_output ["i"] "v" none (initKernel "k" [] none)).2.1).1
        = some (Err.duplicateRegion "<STORE_OUTPUT>")
    ∧ (registerHook "T" Hook.currentBodyTrimmed
        (registerHook "T" Hook.currentBodyTrimmed (initKernel "k" [] none)).2).1
        = some (Err.duplicateHook "T") :=
  ⟨claim3_second_calls_fault.1 (initKernel "k" [⟨some "a"⟩] none) ["x"] ["y"]
      (by decide) (fun b hb => by cases hb) rfl rfl,
   claim3_second_calls_fault.2.1 (initKernel "k" [] none) ["i"] ["j"] "v" "w" none none
      rfl rfl,
   claim3_second_calls_fault.2.2 "T" Hook.currentBodyTrimmed Hook.currentBodyTrimmed
      (initKernel "k" [] none) rfl⟩

/-- C9 (amended): store_output records the mask and value expressions into the
store region's saved fields (together with the emitted comment lines), while
the index list is recorded only on the Context's template_indices field, which
is not part of the saved/restored region state and therefore persists on the
Context after the call; the mirrored buffer, mask and output fields of the
Context itself are restored. -/
theorem claim9_store_region_fields :
    ∀ (indices : List String) (val : String) (mask : Option String) (s : KState),
      dictLookup "<STORE_OUTPUT>" s.subgraph_bodies = none →
      dictLookup "<STORE_OUTPUT>" s.render_hooks = none →
      ((store_output indices val mask s).1 = none
      ∧ dictLookup "<STORE_OUTPUT>" (store_output indices val mask s).2.1.subgraph_bodies
          = some { body := storeLines val mask, template_mask := mask,
                   template_out := some val }
      ∧ (store_output indices val mask s).2.1.template_indices
          = some (if indices.isEmpty then [] else indices)
      ∧ mirrorOf (store_output indices val mask s).2.1 = mirrorOf s) := by
  intro indices val mask s hreg hhook
  rw [store_output_spec indices val mask s hreg hhook]
  exact ⟨rfl, dictLookup_dictInsert_self _ _ _, rfl, rfl⟩

/-- Witness for C9 (amended) at concrete inputs. -/
theorem claim9_store_region_fields_witness :
    dictLookup "<STORE_OUTPUT>"
        (store_output ["i"] "v" (some "m") (initKernel "k" [] none)).2.1.subgraph_bodies
      = some { body := storeLines "v" (some "m"), template_mask := some "m",
               template_out := some "v" }
    ∧ (store_output ["i"] "v" (some "m") (initKernel "k" [] none)).2.1.template_indices
      = some ["i"] :=
  ⟨(claim9_store_region_fields ["i"] "v" (some "m") (initKernel "k" [] none) rfl rfl).2.1,
   (claim9_store_region_fields ["i"] "v" (some "m") (initKernel "k" [] none) rfl rfl).2.2.1⟩

end CuteDSL

namespace CuteDSL

/-- C4: on a fresh Context, def_kernel succeeds returning its token, binds each
given argument name (at every position covered by both lists) to the input
buffer at the same position in the args input table, binds the output buffer
(when present) to the fixed default symbol output, and leaves the DEF_KERNEL
region buffer holding the definition line naming the kernel with the given
argument names comma-joined in order. -/
theorem claim4_def_kernel_signature :
    ∀ (kname : String) (inputs : List Buffer) (output : Option Buffer) (args : List String),
      (∀ b ∈ inputs, b.name.isSome) →
      (inputs.map nameD).Nodup →
      (∀ b, output = some b → b.name.isSome) →
      ((def_kernel args (initKernel kname inputs output)).1 = none
      ∧ (def_kernel args (initKernel kname inputs output)).2.2 = "<DEF_KERNEL>"
      ∧ (∀ j : Nat, j < args.length → j < inputs.length →
          dictLookup (nameD (inputs.getD j ⟨none⟩))
            (def_kernel args (initKernel kname inputs output)).2.1.args_input_buffers
            = some (args.getD j ""))
      ∧ (∀ b, output = some b →
          dictLookup (nameD b)
            (def_kernel args (initKernel kname inputs output)).2.1.args_output_buffers
            = some "output")
      ∧ (args ≠ [] →
          (dictLookup "<DEF_KERNEL>"
              (def_kernel args (initKernel kname inputs output)).2.1.subgraph_bodies).map
              CuteDSLSubgraphInfo.body
            = some ["# CuteDSL kernel function: " ++ kname,
                    "# Arguments: " ++ String.intercalate ", " args,
                    "def " ++ kname ++ "(" ++ String.intercalate ", " args ++ "):"])) := by
  intro kname inputs output args hn hnd ho
  have hspec := def_kernel_spec args (initKernel kname inputs output) hn ho rfl rfl
  refine ⟨by rw [hspec], by rw [hspec], ?_, ?_, ?_⟩
  · intro j hj1 hj2
    rw [hspec]
    exact inputBindFold_lookup_at j args inputs []
      hj1 hj2 (nodup_take_map inputs args.length hnd)
  · intro b hb
    rw [hspec]
    subst hb
    exact dictLookup_dictInsert_self _ _ _
  · intro hne
    rw [hspec]
    rw [dictLookup_dictInsert_self]
    cases args with
    | nil => exact absurd rfl hne
    | cons a as => rfl

/-- Witness for C4 at concrete inputs: a Context with inputs a, b and output c,
def_kernel(x, y). -/
theorem claim4_def_kernel_signature_witness :
    (def_kernel ["x", "y"]
        (initKernel "kern" [⟨some "a"⟩, ⟨some "b"⟩] (some ⟨some "c"⟩))).1 = none
    ∧ dictLookup "a"
        (def_kernel ["x", "y"]
          (initKernel "kern" [⟨some "a"⟩, ⟨some "b"⟩]
            (some ⟨some "c"⟩))).2.1.args_input_buffers = some "x"
    ∧ dictLookup "c"
        (def_kernel ["x", "y"]
          (initKernel "kern" [⟨some "a"⟩, ⟨some "b"⟩]
            (some ⟨some "c"⟩))).2.1.args_output_buffers = some "output"
    ∧ (dictLookup "<DEF_KERNEL>"
         (def_kernel ["x", "y"]
           (initKernel "kern" [⟨some "a"⟩, ⟨some "b"⟩]
             (some ⟨some "c"⟩))).2.1.subgraph_bodies).map CuteDSLSubgraphInfo.body
        = some ["# CuteDSL kernel function: kern", "# Arguments: x, y",
                "def kern(x, y):"] :=
  ⟨(claim4_def_kernel_signature "kern" [⟨some "a"⟩, ⟨some "b"⟩] (some ⟨some "c"⟩)
      ["x", "y"] (by decide) (by decide) (fun b hb => by cases hb; rfl)).1,
   (claim4_def_kernel_signature "kern" [⟨some "a"⟩, ⟨some "b"⟩] (some ⟨some "c"⟩)
      ["x", "y"] (by decide) (by decide) (fun b hb => by cases hb; rfl)).2.2.1
      0 (by decide) (by decide),
   (claim4_def_kernel_signature "kern" [⟨some "a"⟩, ⟨some "b"⟩] (some ⟨some "c"⟩)
      ["x", "y"] (by decide) (by decide) (fun b hb => by cases hb; rfl)).2.2.2.1
      ⟨some "c"⟩ rfl,
   (claim4_def_kernel_signature "kern" [⟨some "a"⟩, ⟨some "b"⟩] (some ⟨some "c"⟩)
      ["x", "y"] (by decide) (by decide) (fun b hb => by cases hb; rfl)).2.2.2.2
      (by decide)⟩

end CuteDSL

namespace CuteDSL

/-- C10: on a fresh Context, def_kernel with fewer argument names than input
buffers succeeds without error and leaves every input buffer beyond the given
names unbound in the args input table; excess argument names beyond the number
of input buffers are ignored for binding (the table equals the one produced by
the names truncated to the number of inputs); and with zero argument names no
input binding occurs while a present output buffer is still bound to the
default symbol. -/
theorem claim10_zip_truncation :
    ∀ (kname : String) (inputs : List Buffer) (output : Option Buffer) (args : List String),
      (∀ b ∈ inputs, b.name.isSome) →
      (inputs.map nameD).Nodup →
      (∀ b, output = some b → b.name.isSome) →
      ((def_kernel args (initKernel kname inputs output)).1 = none
      ∧ (∀ j : Nat, args.length ≤ j → j < inputs.length →
          dictLookup (nameD (inputs.getD j ⟨none⟩))
            (def_kernel args (initKernel kname inputs output)).2.1.args_input_buffers
            = none)
      ∧ (def_kernel args (initKernel kname inputs output)).2.1.args_input_buffers
          = (def_kernel (args.take inputs.length)
              (initKernel kname inputs output)).2.1.args_input_buffers
      ∧ (args = [] →
          (def_kernel args (initKernel kname inputs output)).2.1.args_input_buffers = []
          ∧ ∀ b, output = some b →
              dictLookup (nameD b)
                (def_kernel args (initKernel kname inputs output)).2.1.args_output_buffers
                = some "output")) := by
  intro kname inputs output args hn hnd ho
  have hspec := def_kernel_spec args (initKernel kname inputs output) hn ho rfl rfl
  have hspec2 := def_kernel_spec (args.take inputs.length)
    (initKernel kname inputs output) hn ho rfl rfl
  refine ⟨by rw [hspec], ?_, ?_, ?_⟩
  · intro j hge hlt
    rw [hspec]
    have hkey := getD_not_mem_take_map inputs args.length j hnd hge hlt
    exact inputBindFold_lookup_not_mem args inputs [] _ hkey
  · rw [hspec, hspec2]
    exact inputBindFold_take args inputs []
  · intro h0
    subst h0
    rw [hspec]
    refine ⟨rfl, ?_⟩
    intro b hb
    subst hb
    exact dictLookup_dictInsert_self _ _ _

/-- Witness for C10 at concrete inputs: def_kernel(x) on a Context with inputs
a, b and output c leaves b unbound, and def_kernel() binds no input while
still binding c to output. -/
theorem claim10_zip_truncation_witness :
    (def_kernel ["x"]
        (initKernel "kern" [⟨some "a"⟩, ⟨some "b"⟩] (some ⟨some "c"⟩))).1 = none
    ∧ dictLookup "b"
        (def_kernel ["x"]
          (initKernel "kern" [⟨some "a"⟩, ⟨some "b"⟩]
            (some ⟨some "c"⟩))).2.1.args_input_buffers = none
    ∧ (def_kernel []
        (initKernel "kern" [⟨some "a"⟩, ⟨some "b"⟩]
          (some ⟨some "c"⟩))).2.1.args_input_buffers = []
    ∧ dictLookup "c"
        (def_kernel []
          (initKernel "kern" [⟨some "a"⟩, ⟨some "b"⟩]
            (some ⟨some "c"⟩))).2.1.args_output_buffers = some "output" :=
  ⟨(claim10_zip_truncation "kern" [⟨some "a"⟩, ⟨some "b"⟩] (some ⟨some "c"⟩) ["x"]
      (by decide) (by decide) (fun b hb => by cases hb; rfl)).1,
   (claim10_zip_truncation "kern" [⟨some "a"⟩, ⟨some "b"⟩] (some ⟨some "c"⟩) ["x"]
      (by decide) (by decide) (fun b hb => by cases hb; rfl)).2.1
      1 (by decide) (by decide),
   ((claim10_zip_truncation "kern" [⟨some "a"⟩, ⟨some "b"⟩] (some ⟨some "c"⟩) []
      (by decide) (by decide) (fun b hb => by cases hb; rfl)).2.2.2 rfl).1,
   ((claim10_zip_truncation "kern" [⟨some "a"⟩, ⟨some "b"⟩] (some ⟨some "c"⟩) []
      (by decide) (by decide) (fun b hb => by cases hb; rfl)).2.2.2 rfl).2
      ⟨some "c"⟩ rfl⟩

end CuteDSL
